import Mathlib

/-!
Shallow embedding of the Trace Lifecycle Tracker of the OtelReact repository
(`ReactOpenTelemetryHook` in `src/instrumentation/ReactOpenTelemetry.ts`).

The tracker wraps an external OpenTelemetry tracer.  We model:
  * spans as records indexed by position in the list of all spans the tracer
    has created (`SpanId` is that index);
  * the tracker instance state as the `_activeSpan` slot together with the
    tracer's span store;
  * the ambient execution context (`context.active()` of the OTel API) as an
    `Option SpanId` parameter passed to each operation;
  * `Span.end()` as a fallible external call (the source wraps it in
    `try/catch`, so it acknowledges that failure mode); which spans' `end`
    raises is an environment parameter `Env`;
  * `tracer.startSpan` and the `_diag` logging calls as total: the
    OpenTelemetry JS API error-handling contract is that API calls do not
    throw, and the source calls them unwrapped everywhere.
Operations that the source can observe raising are given an `Except` form;
the `Except.ok` results carry the produced value, the new tracker state and
the list of observable external events (span starts, span ends, log lines).
-/

namespace OtelReact

/-- A primitive attribute value: the TS attribute maps have type
`Record<string, string | number | boolean>`. -/
inductive AttrVal where
  | str (s : String)
  | num (n : Int)
  | bool (b : Bool)
deriving DecidableEq, Repr, Inhabited

/-- An attribute map, JS-object style: a list of key/value entries where a
later entry shadows an earlier one with the same key. -/
abbrev AttrMap := List (String × AttrVal)

/-- Spans are identified by their creation index in the tracer's span store. -/
abbrev SpanId := Nat

/-- What the external tracer records for one created span. -/
structure SpanRec where
  name : String
  /-- The span attributes the tracer recorded at creation. -/
  attrs : AttrMap
  parent : Option SpanId
  ended : Bool
deriving DecidableEq, Repr, Inhabited

/-- An execution context, modelled as the span it carries (if any);
`trace.getSpan(ctx)` is the identity under this reading. -/
abbrev Context := Option SpanId

/-- The second argument of `tracer.startSpan`: a JS options object.  The
tracer takes span attributes from its `attributes` field when that field is
an attribute map; all other top-level entries are kept separately. -/
structure SpanOptions where
  attributes : Option AttrMap
  topLevel : AttrMap
deriving DecidableEq, Repr, Inhabited

/-- The options object `{ ...attributes }` built by `_startSpan` and
`_startParentSpan`: the caller's entries are spread as top-level option
fields.  The `attributes` field of such an object is absent or (when the
caller's map has a key `"attributes"`) a primitive value, never an attribute
map, so it contributes no span attributes. -/
def spreadOptions (attributes : AttrMap) : SpanOptions :=
  { attributes := none, topLevel := attributes }

/-- `trace.setSpan(ctx, span)`: the resulting context carries `span`. -/
def traceSetSpan (_ctx : Context) (p : SpanId) : Context :=
  some p

/-- The tracker state: the `_activeSpan` slot (the field is named
`_activeSpan` in the source) plus the tracer's span store. -/
structure TrackerState where
  activeSpan : Option SpanId
  spans : List SpanRec
deriving DecidableEq, Repr, Inhabited

/-- The state at tracker construction: empty slot, no spans created. -/
def initialState : TrackerState :=
  { activeSpan := none, spans := [] }

/-- The environment: which spans' `end()` call raises when invoked.  This is
external-SDK behaviour (e.g. rejection of an already-ended handle); the
tracker must cope with every instantiation. -/
structure Env where
  endRaises : SpanId → Bool

/-- Observable external events of one tracker operation. -/
inductive Event where
  | startCalled (sid : SpanId)
  | endCalled (sid : SpanId)
  | warn (msg : String)
  | debug (msg : String)
deriving DecidableEq, Repr

/-- `tracer.startSpan(name, options, context?)`: when the third argument is
`undefined` the JS default parameter substitutes the ambient
`context.active()`; the new span's parent is the span carried by the
resulting context, and its attributes come from `options.attributes`. -/
def tracerStartSpan (st : TrackerState) (name : String) (opts : SpanOptions)
    (parentCtx : Option Context) (ambient : Context) : SpanId × TrackerState :=
  let ctx : Context := parentCtx.getD ambient
  let sr : SpanRec :=
    { name := name, attrs := opts.attributes.getD [], parent := ctx, ended := false }
  (st.spans.length, { st with spans := st.spans ++ [sr] })

/-- Mark the span `sid` as ended in the span store. -/
def markEnded (spans : List SpanRec) (sid : SpanId) : List SpanRec :=
  spans.set sid { spans.getD sid default with ended := true }

/-- `span.end()`: fallible external call; on success the span is recorded as
ended, on failure the store is unchanged and the exception propagates to the
caller of `end`. -/
def spanEnd (env : Env) (sid : SpanId) (st : TrackerState) :
    Except String TrackerState :=
  if env.endRaises sid then Except.error "span end raised"
  else Except.ok { st with spans := markEnded st.spans sid }

/-- `_startParentSpan(spanName, parentSpan?, attributes?)`: starts a span via
the tracer — options are the spread of the attributes, the context argument
is `trace.setSpan(context.active(), parentSpan)` when a parent is given and
`undefined` otherwise — then assigns it to `this._activeSpan` and returns it. -/
def startParentSpanP (st : TrackerState) (spanName : String)
    (parentSpan : Option SpanId) (attributes : AttrMap) (ambient : Context) :
    Option SpanId × TrackerState × List Event :=
  let pc : Option Context :=
    match parentSpan with
    | some p => some (traceSetSpan ambient p)
    | none => none
  let (span, st1) := tracerStartSpan st spanName (spreadOptions attributes) pc ambient
  (some span, { st1 with activeSpan := some span }, [Event.startCalled span])

/-- `_startSpan(spanName, parentSpan?, attributes?)`: same tracer call as
`_startParentSpan` but does not touch `this._activeSpan`. -/
def startSpanP (st : TrackerState) (spanName : String)
    (parentSpan : Option SpanId) (attributes : AttrMap) (ambient : Context) :
    Option SpanId × TrackerState × List Event :=
  let pc : Option Context :=
    match parentSpan with
    | some p => some (traceSetSpan ambient p)
    | none => none
  let (span, st1) := tracerStartSpan st spanName (spreadOptions attributes) pc ambient
  (some span, st1, [Event.startCalled span])

/-- `resetSpan()`: if `this._activeSpan` is set, call `end()` on it inside
`try/catch`, the catch branch only logging a warning; then unconditionally
assign `undefined` to the slot.  The `Except` result records whether the
operation raises into its caller: every branch returns `Except.ok`. -/
def resetSpanExc (env : Env) (st : TrackerState) :
    Except String (TrackerState × List Event) :=
  match st.activeSpan with
  | some sid =>
    match spanEnd env sid st with
    | Except.ok st1 =>
      Except.ok ({ st1 with activeSpan := none }, [Event.endCalled sid])
    | Except.error _ =>
      Except.ok ({ st with activeSpan := none },
        [Event.endCalled sid, Event.warn "Error ending span during reset:"])
  | none => Except.ok ({ st with activeSpan := none }, [])

/-- The result of `resetSpan()` (it never raises, see `resetSpanExc`). -/
def resetSpan (env : Env) (st : TrackerState) : TrackerState × List Event :=
  match resetSpanExc env st with
  | Except.ok r => r
  | Except.error _ => (st, [])

/-- `getActiveSpan()`: pure read of the slot. -/
def getActiveSpan (st : TrackerState) : Option SpanId :=
  st.activeSpan

/-- `RunTrace({action, attributes})`: resolve the parent as
`this._activeSpan || trace.getSpan(context.active())`; if none, synthesize a
parent with `_startParentSpan`, store it in the slot and use it; then start
the requested span with `_startSpan` and return it.  The source lines after
this `return` (a diagnostic warning and `return undefined`) are unreachable. -/
def RunTrace (st : TrackerState) (action : String) (attributes : AttrMap)
    (ambient : Context) : Option SpanId × TrackerState × List Event :=
  let parentSpan0 : Option SpanId :=
    match st.activeSpan with
    | some a => some a
    | none => ambient
  match parentSpan0 with
  | none =>
    let (span, st1, ev1) := startParentSpanP st action none attributes ambient
    let st2 := { st1 with activeSpan := span }
    let (span2, st3, ev2) := startSpanP st2 action span attributes ambient
    (span2, st3, ev1 ++ ev2)
  | some p =>
    let (span2, st1, ev2) := startSpanP st action (some p) attributes ambient
    (span2, st1, ev2)

/-- Modelled from the spec: the method `setActiveSpan` that `startPageSpan`
calls is not among the provided source files (only its call site is).  Per
the spec, `startPageSpan` "installs it as the active span, replacing
(without ending) whatever was previously active". -/
def setActiveSpan (st : TrackerState) (sid : SpanId) : TrackerState :=
  { st with activeSpan := some sid }

/-- The base attribute entries `startPageSpan` writes before spreading the
caller's attributes over them. -/
def pageBaseAttrs (pageName : String) : AttrMap :=
  [("page.name", AttrVal.str pageName),
   ("page.type", AttrVal.str "navigation"),
   ("span.kind", AttrVal.str "client")]

/-- `startPageSpan(pageName, attributes?)`: starts `page.<pageName>` with the
caller attributes spread over the base entries, nested under the `attributes`
key of the options (the context argument is omitted, so the tracer falls
back to the ambient context), installs it as active and returns it. -/
def startPageSpan (st : TrackerState) (pageName : String) (attributes : AttrMap)
    (ambient : Context) : SpanId × TrackerState × List Event :=
  let (pageSpan, st1) := tracerStartSpan st ("page." ++ pageName)
    { attributes := some (pageBaseAttrs pageName ++ attributes), topLevel := [] }
    none ambient
  (pageSpan, setActiveSpan st1 pageSpan,
    [Event.startCalled pageSpan,
     Event.debug ("Started new page span for: " ++ pageName)])

/-- `getTracer()`: returns the underlying tracer capability (opaque here). -/
def getTracer (_st : TrackerState) : Unit :=
  ()

/-- Exception behaviour of `startPageSpan`: its body calls only
`tracer.startSpan`, `setActiveSpan` (a slot assignment) and `_diag.debug`,
none of which raises, so it returns its result in every case. -/
def startPageSpanExc (st : TrackerState) (pageName : String) (attributes : AttrMap)
    (ambient : Context) : Except String (SpanId × TrackerState × List Event) :=
  Except.ok (startPageSpan st pageName attributes ambient)

/-- Exception behaviour of `RunTrace`: its body calls only `tracer.startSpan`
(via `_startParentSpan` and `_startSpan`) and slot assignments, none of which
raises. -/
def RunTraceExc (st : TrackerState) (action : String) (attributes : AttrMap)
    (ambient : Context) : Except String (Option SpanId × TrackerState × List Event) :=
  Except.ok (RunTrace st action attributes ambient)

/-- Exception behaviour of `getActiveSpan`: a pure field read. -/
def getActiveSpanExc (st : TrackerState) : Except String (Option SpanId) :=
  Except.ok (getActiveSpan st)

/-- Exception behaviour of `getTracer`: a pure accessor. -/
def getTracerExc (st : TrackerState) : Except String Unit :=
  Except.ok (getTracer st)

/-- Whether the span `sid` is recorded as ended in the store of `st`. -/
def spanEnded (st : TrackerState) (sid : SpanId) : Bool :=
  (st.spans.getD sid default).ended

/-- Whether an event is a diagnostic warning. -/
def Event.isWarn : Event → Bool
  | Event.warn _ => true
  | _ => false

/-- A sample span record for concrete instantiations. -/
def sampleSpanRec : SpanRec :=
  { name := "s", attrs := [], parent := none, ended := false }

/-- A tracker state whose slot holds span 0 over a one-span store. -/
def sampleActiveState : TrackerState :=
  { activeSpan := some 0, spans := [sampleSpanRec] }

/-- A tracker state whose slot holds span 0 over a two-span store. -/
def sampleTwoSpanState : TrackerState :=
  { activeSpan := some 0, spans := [sampleSpanRec, { sampleSpanRec with name := "s1" }] }

/-- An environment in which every `end()` call raises. -/
def envAllRaise : Env :=
  { endRaises := fun _ => true }

/-- An environment in which no `end()` call raises. -/
def envNoneRaise : Env :=
  { endRaises := fun _ => false }

/-- The tracker states reachable from construction by any sequence of the
public mutating operations, with arbitrary arguments, ambient contexts and
external-failure environments. -/
inductive Reachable : TrackerState → Prop where
  | init : Reachable initialState
  | page (st : TrackerState) (pageName : String) (attributes : AttrMap)
      (ambient : Context) (h : Reachable st) :
      Reachable (startPageSpan st pageName attributes ambient).2.1
  | run (st : TrackerState) (action : String) (attributes : AttrMap)
      (ambient : Context) (h : Reachable st) :
      Reachable (RunTrace st action attributes ambient).2.1
  | reset (env : Env) (st : TrackerState) (h : Reachable st) :
      Reachable (resetSpan env st).1

/-! Helper lemmas shared by the claim theorems. -/

theorem resetSpanExc_isOk (env : Env) (st : TrackerState) :
    (resetSpanExc env st).isOk = true := by
  unfold resetSpanExc
  split
  · split <;> rfl
  · rfl

theorem resetSpan_active_none (env : Env) (st : TrackerState) :
    (resetSpan env st).1.activeSpan = none := by
  unfold resetSpan resetSpanExc
  split
  next r heq =>
    split at heq
    · split at heq
      · injection heq with h2; subst h2; rfl
      · injection heq with h2; subst h2; rfl
    · injection heq with h2; subst h2; rfl
  next e heq =>
    split at heq
    · split at heq
      · exact Except.noConfusion heq
      · exact Except.noConfusion heq
    · exact Except.noConfusion heq

theorem resetSpan_of_active_none (env : Env) (st : TrackerState)
    (h : st.activeSpan = none) : resetSpan env st = (st, []) := by
  cases st with
  | mk a s =>
    simp only at h
    subst h
    rfl

/-- C1: after `startPageSpan(pageName, attributes)` returns, the returned
span is installed in the active slot (`getActiveSpan()` returns that same
handle), and the previously active span, if any, is replaced (the new handle
differs from it) without being ended (its ended flag is unchanged). -/
theorem c1_startPageSpan_installs_active_span (st : TrackerState)
    (pageName : String) (attributes : AttrMap) (ambient : Context) :
    (startPageSpan st pageName attributes ambient).2.1.activeSpan
        = some (startPageSpan st pageName attributes ambient).1
    ∧ getActiveSpan (startPageSpan st pageName attributes ambient).2.1
        = some (startPageSpan st pageName attributes ambient).1
    ∧ (∀ old, st.activeSpan = some old → old < st.spans.length →
        (startPageSpan st pageName attributes ambient).1 ≠ old
        ∧ spanEnded (startPageSpan st pageName attributes ambient).2.1 old
            = spanEnded st old) := by
  refine ⟨rfl, rfl, ?_⟩
  intro old hact hlt
  constructor
  · show st.spans.length ≠ old
    exact ne_of_gt hlt
  · show ((st.spans ++ _).getD old default).ended = _
    rw [List.getD_append _ _ _ _ hlt]
    rfl

/-- Witness for C1 at a state whose slot holds span 0 over a one-span store. -/
theorem c1_startPageSpan_witness :
    (startPageSpan sampleActiveState "home" [] none).1 ≠ 0
    ∧ spanEnded (startPageSpan sampleActiveState "home" [] none).2.1 0
        = spanEnded sampleActiveState 0 :=
  (c1_startPageSpan_installs_active_span sampleActiveState "home" [] none).2.2 0
    rfl (by decide)

/-- C2: none of `resetSpan`, `startPageSpan`, `RunTrace`, `getActiveSpan`,
`getTracer` raises into the calling application code, for any input, tracker
state and external-failure environment; failures are absorbed and only
logged. -/
theorem c2_tracker_ops_never_raise (env : Env) (st : TrackerState)
    (pageName action : String) (attributes : AttrMap) (ambient : Context) :
    (resetSpanExc env st).isOk = true
    ∧ (startPageSpanExc st pageName attributes ambient).isOk = true
    ∧ (RunTraceExc st action attributes ambient).isOk = true
    ∧ (getActiveSpanExc st).isOk = true
    ∧ (getTracerExc st).isOk = true :=
  ⟨resetSpanExc_isOk env st, rfl, rfl, rfl, rfl⟩

/-- C3: `RunTrace` with an empty slot and no ambient span creates exactly two
spans — a root named after the action, installed in the slot, and a child of
that root with the same name, which is the returned handle — and
`getActiveSpan()` afterwards returns the synthesized root. -/
theorem c3_runTrace_auto_root_synthesis (st : TrackerState) (action : String)
    (attributes : AttrMap) (hempty : st.activeSpan = none) :
    (RunTrace st action attributes none).2.1.spans
        = st.spans
          ++ [{ name := action, attrs := [], parent := none, ended := false },
              { name := action, attrs := [],
                parent := some st.spans.length, ended := false }]
    ∧ (RunTrace st action attributes none).2.1.activeSpan
        = some st.spans.length
    ∧ (RunTrace st action attributes none).1 = some (st.spans.length + 1)
    ∧ getActiveSpan (RunTrace st action attributes none).2.1
        = some st.spans.length := by
  simp [RunTrace, hempty, startParentSpanP, startSpanP, tracerStartSpan,
    spreadOptions, traceSetSpan, getActiveSpan]

/-- Witness for C3 at the freshly constructed tracker. -/
theorem c3_runTrace_witness :
    (RunTrace initialState "checkout" [] none).2.1.spans
        = initialState.spans
          ++ [{ name := "checkout", attrs := [], parent := none, ended := false },
              { name := "checkout", attrs := [],
                parent := some initialState.spans.length, ended := false }]
    ∧ (RunTrace initialState "checkout" [] none).2.1.activeSpan
        = some initialState.spans.length
    ∧ (RunTrace initialState "checkout" [] none).1
        = some (initialState.spans.length + 1)
    ∧ getActiveSpan (RunTrace initialState "checkout" [] none).2.1
        = some initialState.spans.length :=
  c3_runTrace_auto_root_synthesis initialState "checkout" [] rfl

/-- C4: when the slot holds a span, the span `RunTrace` creates has the
slot's span as its parent, for every ambient context (in particular when the
ambient context also holds a span). -/
theorem c4_runTrace_parent_precedence (st : TrackerState) (action : String)
    (attributes : AttrMap) (ambient : Context) (a : SpanId)
    (hact : st.activeSpan = some a) :
    (RunTrace st action attributes ambient).1 = some st.spans.length
    ∧ (RunTrace st action attributes ambient).2.1.spans
        = st.spans
          ++ [{ name := action, attrs := [], parent := some a, ended := false }] := by
  simp [RunTrace, hact, startSpanP, tracerStartSpan, spreadOptions, traceSetSpan]

/-- Witness for C4: slot holds span 0, ambient holds span 1; the created
span's parent is span 0. -/
theorem c4_runTrace_witness :
    (RunTrace sampleTwoSpanState "act" [] (some 1)).1
        = some sampleTwoSpanState.spans.length
    ∧ (RunTrace sampleTwoSpanState "act" [] (some 1)).2.1.spans
        = sampleTwoSpanState.spans
          ++ [{ name := "act", attrs := [], parent := some 0, ended := false }] :=
  c4_runTrace_parent_precedence sampleTwoSpanState "act" [] (some 1) 0 rfl

/-- C5: `resetSpan` ends the held span when the slot is non-empty (and the
external `end` succeeds), clears the slot unconditionally, never raises to
its caller, and when `end()` raises internally the failure is caught and
logged as a warning. -/
theorem c5_resetSpan_ends_clears_never_raises (env : Env) (st : TrackerState) :
    (resetSpanExc env st).isOk = true
    ∧ (resetSpan env st).1.activeSpan = none
    ∧ (∀ sid, st.activeSpan = some sid → sid < st.spans.length →
        env.endRaises sid = false → spanEnded (resetSpan env st).1 sid = true)
    ∧ (∀ sid, st.activeSpan = some sid → env.endRaises sid = true →
        (resetSpan env st).2
          = [Event.endCalled sid,
             Event.warn "Error ending span during reset:"]) := by
  refine ⟨resetSpanExc_isOk env st, resetSpan_active_none env st, ?_, ?_⟩
  · intro sid hact hlt hok
    simp [resetSpan, resetSpanExc, spanEnd, hact, hok, spanEnded, markEnded,
      List.getD_eq_getElem?_getD, List.getElem?_set, hlt]
  · intro sid hact hra
    simp [resetSpan, resetSpanExc, spanEnd, hact, hra]

/-- Witness for C5: with a raising `end` the failure is absorbed and the
warning logged; with a succeeding `end` the held span is recorded as ended. -/
theorem c5_resetSpan_witness :
    (resetSpan envAllRaise sampleActiveState).2
        = [Event.endCalled 0, Event.warn "Error ending span during reset:"]
    ∧ spanEnded (resetSpan envNoneRaise sampleActiveState).1 0 = true :=
  ⟨(c5_resetSpan_ends_clears_never_raises envAllRaise sampleActiveState).2.2.2 0
      rfl rfl,
   (c5_resetSpan_ends_clears_never_raises envNoneRaise sampleActiveState).2.2.1 0
      rfl (by decide) rfl⟩

/-- C7: calling `resetSpan` twice in a row (under any two external-failure
environments) leaves the state of the first call unchanged; the second call
performs no external event at all (in particular no further `end()` call)
and raises nothing. -/
theorem c7_resetSpan_idempotent (env env2 : Env) (st : TrackerState) :
    (resetSpan env2 (resetSpan env st).1).1 = (resetSpan env st).1
    ∧ (resetSpan env2 (resetSpan env st).1).2 = []
    ∧ (resetSpanExc env2 (resetSpan env st).1).isOk = true := by
  have h1 : (resetSpan env st).1.activeSpan = none := resetSpan_active_none env st
  have h2 := resetSpan_of_active_none env2 (resetSpan env st).1 h1
  exact ⟨by rw [h2], by rw [h2], resetSpanExc_isOk env2 _⟩

/-- C8: `RunTrace` leaves the active slot unchanged whenever a parent is
found (slot non-empty, or ambient context supplies a span); only the
no-parent synthesis path installs a span into the slot. -/
theorem c8_runTrace_frame (st : TrackerState) (action : String)
    (attributes : AttrMap) (ambient : Context) :
    ((st.activeSpan.isSome || ambient.isSome) = true →
      (RunTrace st action attributes ambient).2.1.activeSpan = st.activeSpan)
    ∧ (st.activeSpan = none → ambient = none →
      (RunTrace st action attributes ambient).2.1.activeSpan
        = some st.spans.length) := by
  constructor
  · intro h
    cases hA : st.activeSpan with
    | some a => simp [RunTrace, hA, startSpanP, tracerStartSpan]
    | none =>
      cases hB : ambient with
      | some b => simp [RunTrace, hA, hB, startSpanP, tracerStartSpan]
      | none => simp [hA, hB] at h
  · intro h1 h2
    simp [RunTrace, h1, h2, startParentSpanP, startSpanP, tracerStartSpan]

/-- Witness for C8: a found parent (slot case) leaves the slot unchanged;
the no-parent path installs the synthesized root. -/
theorem c8_runTrace_frame_witness :
    (RunTrace sampleActiveState "act" [] (some 5)).2.1.activeSpan
        = sampleActiveState.activeSpan
    ∧ (RunTrace initialState "act" [] none).2.1.activeSpan
        = some initialState.spans.length :=
  ⟨(c8_runTrace_frame sampleActiveState "act" [] (some 5)).1 (by decide),
   (c8_runTrace_frame initialState "act" [] none).2 rfl rfl⟩

/-- C9: `RunTrace` always returns a span handle, never empty, and its event
trace contains no warning — the fallback branch that would log "No parent
span available" is unreachable. -/
theorem c9_runTrace_never_empty (st : TrackerState) (action : String)
    (attributes : AttrMap) (ambient : Context) :
    (RunTrace st action attributes ambient).1.isSome = true
    ∧ ((RunTrace st action attributes ambient).2.2.all
        fun e => !e.isWarn) = true := by
  cases hA : st.activeSpan with
  | some a => simp [RunTrace, hA, startSpanP, tracerStartSpan, Event.isWarn]
  | none =>
    cases hB : ambient with
    | some b => simp [RunTrace, hA, hB, startSpanP, tracerStartSpan, Event.isWarn]
    | none =>
      simp [RunTrace, hA, hB, startParentSpanP, startSpanP, tracerStartSpan,
        Event.isWarn]

/-- C10: `_startSpan`/`_startParentSpan` spread the caller's attributes
directly as the options object (not nested under `attributes`), so every
span `RunTrace` creates carries no span attributes, unlike `startPageSpan`,
whose span carries the base entries merged with the caller's attributes. -/
theorem c10_runTrace_attributes_not_nested (st : TrackerState)
    (action pageName : String) (attributes : AttrMap) (ambient : Context)
    (_hne : attributes ≠ []) :
    (spreadOptions attributes).attributes = none
    ∧ (spreadOptions attributes).topLevel = attributes
    ∧ (∀ sr, sr ∈ (RunTrace st action attributes ambient).2.1.spans →
        sr ∉ st.spans → sr.attrs = [])
    ∧ (startPageSpan st pageName attributes ambient).2.1.spans
        = st.spans
          ++ [{ name := "page." ++ pageName,
                attrs := pageBaseAttrs pageName ++ attributes,
                parent := ambient, ended := false }] := by
  refine ⟨rfl, rfl, ?_, rfl⟩
  intro sr hmem hnot
  cases hA : st.activeSpan with
  | some a =>
    simp [RunTrace, hA, startSpanP, tracerStartSpan, spreadOptions] at hmem
    rcases hmem with h | h
    · exact absurd h hnot
    · rw [h]
  | none =>
    cases hB : ambient with
    | some b =>
      simp [RunTrace, hA, hB, startSpanP, tracerStartSpan, spreadOptions] at hmem
      rcases hmem with h | h
      · exact absurd h hnot
      · rw [h]
    | none =>
      simp [RunTrace, hA, hB, startParentSpanP, startSpanP, tracerStartSpan,
        spreadOptions, traceSetSpan] at hmem
      rcases hmem with h | h | h
      · exact absurd h hnot
      · rw [h]
      · rw [h]

/-- Witness for C10 with the non-empty attribute map `[("k", "v")]`. -/
theorem c10_attributes_witness :
    [("k", AttrVal.str "v")] ≠ ([] : AttrMap)
    ∧ (spreadOptions [("k", AttrVal.str "v")]).attributes = none
    ∧ (startPageSpan initialState "home" [("k", AttrVal.str "v")] none).2.1.spans
        = initialState.spans
          ++ [{ name := "page." ++ "home",
                attrs := pageBaseAttrs "home" ++ [("k", AttrVal.str "v")],
                parent := none, ended := false }] :=
  ⟨by decide,
   (c10_runTrace_attributes_not_nested initialState "act" "home"
      [("k", AttrVal.str "v")] none (by decide)).1,
   (c10_runTrace_attributes_not_nested initialState "act" "home"
      [("k", AttrVal.str "v")] none (by decide)).2.2.2⟩

/-- C6: over every reachable tracker state the active slot holds at most one
span handle (and that handle indexes a span the tracer created), and after
any reset operation completes the slot is empty, so it holds no reference to
an already-ended handle. -/
theorem c6_single_active_span_invariant (st : TrackerState) (h : Reachable st) :
    st.activeSpan.toList.length ≤ 1
    ∧ (∀ sid, st.activeSpan = some sid → sid < st.spans.length)
    ∧ (∀ env, (resetSpan env st).1.activeSpan = none) := by
  refine ⟨?_, ?_, fun env => resetSpan_active_none env st⟩
  · cases st.activeSpan <;> simp
  · induction h with
    | init =>
      intro sid hs
      simp [initialState] at hs
    | page st p a amb h ih =>
      intro sid hs
      simp only [startPageSpan, tracerStartSpan, setActiveSpan] at hs ⊢
      simp at hs ⊢
      subst hs
      exact Nat.lt_succ_self _
    | run st action a amb h ih =>
      intro sid hs
      cases hA : st.activeSpan with
      | some x =>
        simp only [RunTrace, hA, startSpanP, tracerStartSpan] at hs ⊢
        simp at hs ⊢
        subst hs
        exact Nat.lt_succ_of_lt (ih x hA)
      | none =>
        cases hB : amb with
        | some b =>
          simp only [RunTrace, hA, hB, startSpanP, tracerStartSpan] at hs ⊢
          simp [hA] at hs
        | none =>
          simp only [RunTrace, hA, hB, startParentSpanP, startSpanP,
            tracerStartSpan] at hs ⊢
          simp at hs ⊢
          subst hs
          exact Nat.lt_succ_of_lt (Nat.lt_succ_self _)
    | reset env st h ih =>
      intro sid hs
      rw [resetSpan_active_none] at hs
      cases hs

/-- Witness for C6 at two concrete reachable states: one step of
`startPageSpan` from construction, and a reset from construction. -/
theorem c6_invariant_witness :
    0 < (startPageSpan initialState "home" [] none).2.1.spans.length
    ∧ (resetSpan envAllRaise initialState).1.activeSpan = none :=
  ⟨(c6_single_active_span_invariant
      (startPageSpan initialState "home" [] none).2.1
      (Reachable.page initialState "home" [] none Reachable.init)).2.1 0 rfl,
   (c6_single_active_span_invariant initialState Reachable.init).2.2 envAllRaise⟩

/-- Concrete evaluations checking the model against the spec scenarios. -/
example :
    (startPageSpan initialState "home" [] none).2.1
      = { activeSpan := some 0,
          spans := [{ name := "page.home",
                      attrs := pageBaseAttrs "home",
                      parent := none, ended := false }] } := by
  decide

example :
    (RunTrace initialState "checkout" [] none).1 = some 1 := by
  decide

example :
    (RunTrace sampleTwoSpanState "act" [] (some 1)).2.1.spans.getD 2 default
      = { name := "act", attrs := [], parent := some 0, ended := false } := by
  decide

example :
    (resetSpan envAllRaise sampleActiveState).2
      = [Event.endCalled 0, Event.warn "Error ending span during reset:"] := by
  decide

example :
    spanEnded (resetSpan envNoneRaise sampleActiveState).1 0 = true := by
  decide

end OtelReact
